import Mathlib

/-!
Verification of the MCP dynamic-loader repository: a shallow embedding of
`src/main.py` (the dynamic tool loader) and `src/tools/docker_tool.py`
(the container/image facade over the docker engine client), together with
theorems settling the specification claims.

The engine (docker daemon plus docker-py client) is external to the
repository; it is modelled as an explicit state (`EngineState`) and every
facade operation additionally returns the list of engine calls it issued
(`EngineCall`), so that claims of the form "no engine call is performed"
become statements about that trace.
-/

namespace MCPDyn

/- ===================== Python literal values =====================
Model of the values produced by `ast.literal_eval` in
`docker_run_container`.  The model covers the literal subset relevant to
the repository: `None`, booleans, integers, strings, lists and dicts.
Concrete inputs are only ever instantiated where this subset agrees with
Python (plain port-mapping dicts, plain lists, and strings that are not
literals at all). -/

inductive PyLit where
  | noneLit : PyLit
  | boolLit (b : Bool) : PyLit
  | intLit (n : Int) : PyLit
  | strLit (s : String) : PyLit
  | listLit (xs : List PyLit) : PyLit
  | dictLit (kvs : List (PyLit × PyLit)) : PyLit

/-- Skip ASCII whitespace (space, tab, LF, CR), as the Python tokenizer does
between literal tokens. -/
def skipWs : List Char → List Char
  | [] => []
  | c :: rest =>
    if c.toNat = 32 ∨ c.toNat = 9 ∨ c.toNat = 10 ∨ c.toNat = 13 then skipWs rest
    else c :: rest

/-- Longest digit prefix of a character list, and the remainder. -/
def spanDigits : List Char → List Char × List Char
  | [] => ([], [])
  | c :: rest =>
    if c.isDigit then
      let (d, r) := spanDigits rest
      (c :: d, r)
    else ([], c :: rest)

def digitsToNat (ds : List Char) : Nat :=
  ds.foldl (fun a c => a * 10 + (c.toNat - 48)) 0

/-- The keyword literals accepted by `ast.literal_eval`. -/
def parseAtomKw (cs : List Char) : Option (PyLit × List Char) :=
  match cs with
  | 'N' :: 'o' :: 'n' :: 'e' :: rest => some (.noneLit, rest)
  | 'T' :: 'r' :: 'u' :: 'e' :: rest => some (.boolLit true, rest)
  | 'F' :: 'a' :: 'l' :: 's' :: 'e' :: rest => some (.boolLit false, rest)
  | _ => none

/-- Body of a quoted string literal: characters up to the closing quote
whose code point is `qCode`.  Escape sequences are outside the modelled
subset (a backslash makes the parse fail). -/
def parseStrBody (qCode : Nat) : List Char → Option (List Char × List Char)
  | [] => none
  | c :: rest =>
    if c.toNat = qCode then some ([], rest)
    else if c.toNat = 92 then none
    else
      match parseStrBody qCode rest with
      | some (s, r) => some (c :: s, r)
      | none => none

mutual

/-- One Python literal, fuel-bounded recursive descent.  Returns the value
and the unconsumed remainder. -/
def parseLit : Nat → List Char → Option (PyLit × List Char)
  | 0, _ => none
  | Nat.succ fuel, cs0 =>
    let cs := skipWs cs0
    match parseAtomKw cs with
    | some r => some r
    | none =>
      match cs with
      | [] => none
      | c :: rest =>
        if c.toNat = 39 ∨ c.toNat = 34 then
          match parseStrBody c.toNat rest with
          | some (sdata, r) => some (.strLit (String.mk sdata), r)
          | none => none
        else if c.isDigit then
          let (ds, r) := spanDigits (c :: rest)
          some (.intLit (Int.ofNat (digitsToNat ds)), r)
        else if c.toNat = 45 then
          match rest with
          | d :: r2 =>
            if d.isDigit then
              let (ds, r) := spanDigits (d :: r2)
              some (.intLit (-(Int.ofNat (digitsToNat ds))), r)
            else none
          | [] => none
        else if c.toNat = 91 then
          let csi := skipWs rest
          match csi with
          | d :: r2 =>
            if d.toNat = 93 then some (.listLit [], r2)
            else
              match parseListItems fuel csi with
              | some (xs, r) => some (.listLit xs, r)
              | none => none
          | [] => none
        else if c.toNat = 123 then
          let csi := skipWs rest
          match csi with
          | d :: r2 =>
            if d.toNat = 125 then some (.dictLit [], r2)
            else
              match parseDictItems fuel csi with
              | some (kvs, r) => some (.dictLit kvs, r)
              | none => none
          | [] => none
        else none

/-- Comma-separated list items, terminated by a closing square bracket. -/
def parseListItems : Nat → List Char → Option (List PyLit × List Char)
  | 0, _ => none
  | Nat.succ fuel, cs =>
    match parseLit fuel cs with
    | none => none
    | some (v, cs1) =>
      match skipWs cs1 with
      | c :: cs2 =>
        if c.toNat = 44 then
          match parseListItems fuel cs2 with
          | some (vs, r) => some (v :: vs, r)
          | none => none
        else if c.toNat = 93 then some ([v], cs2)
        else none
      | [] => none

/-- Comma-separated `key : value` dict entries, terminated by a closing
curly bracket. -/
def parseDictItems : Nat → List Char → Option (List (PyLit × PyLit) × List Char)
  | 0, _ => none
  | Nat.succ fuel, cs =>
    match parseLit fuel cs with
    | none => none
    | some (k, cs1) =>
      match skipWs cs1 with
      | c :: cs2 =>
        if c.toNat = 58 then
          match parseLit fuel cs2 with
          | none => none
          | some (v, cs3) =>
            match skipWs cs3 with
            | d :: cs4 =>
              if d.toNat = 44 then
                match parseDictItems fuel cs4 with
                | some (kvs, r) => some ((k, v) :: kvs, r)
                | none => none
              else if d.toNat = 125 then some ([(k, v)], cs4)
              else none
            | [] => none
        else none
      | [] => none

end

/-- Model of `ast.literal_eval`: parse a whole string as one Python
literal; `none` models the raised exception on anything else. -/
def pyLiteralEval (s : String) : Option PyLit :=
  match parseLit (2 * s.length + 4) s.data with
  | some (v, rest) => if (skipWs rest).isEmpty then some v else none
  | none => none

/- ===================== UTF-8 decoding =====================
Model of `bytes.decode("utf-8")` (strict, raises on invalid input) and
`bytes.decode("utf-8", errors="ignore")` (total).  Bytes are naturals
smaller than 256; the decoders produce code points. -/

/-- Is the byte a UTF-8 continuation byte (10xxxxxx)? -/
def isCont (b : Nat) : Bool := 128 ≤ b && b < 192

/-- Decode one UTF-8 scalar value from the head of the byte list, rejecting
overlong encodings and surrogate code points, as the strict Python decoder
does.  Returns the code point and the remaining bytes. -/
def utf8Step : List Nat → Option (Nat × List Nat)
  | [] => none
  | b :: rest =>
    if b < 128 then some (b, rest)
    else if b < 194 then none
    else if b < 224 then
      match rest with
      | b1 :: rest1 =>
        if isCont b1 then some ((b - 192) * 64 + (b1 - 128), rest1) else none
      | [] => none
    else if b < 240 then
      match rest with
      | b1 :: b2 :: rest2 =>
        if isCont b1 && isCont b2 && (b ≠ 224 || 160 ≤ b1) && (b ≠ 237 || b1 < 160) then
          some ((b - 224) * 4096 + (b1 - 128) * 64 + (b2 - 128), rest2)
        else none
      | _ => none
    else if b < 245 then
      match rest with
      | b1 :: b2 :: b3 :: rest3 =>
        if isCont b1 && isCont b2 && isCont b3 && (b ≠ 240 || 144 ≤ b1) && (b ≠ 244 || b1 < 144) then
          some ((b - 240) * 262144 + (b1 - 128) * 4096 + (b2 - 128) * 64 + (b3 - 128), rest3)
        else none
      | _ => none
    else none

/-- Strict UTF-8 decoding with fuel (`utf8Step` consumes at least one byte,
so fuel equal to the length always suffices). -/
def utf8DecodeStrictAux : Nat → List Nat → Option (List Nat)
  | _, [] => some []
  | 0, _ :: _ => none
  | Nat.succ fuel, b :: rest =>
    match utf8Step (b :: rest) with
    | none => none
    | some (cp, r) =>
      match utf8DecodeStrictAux fuel r with
      | some cps => some (cp :: cps)
      | none => none

/-- Model of `bytes.decode("utf-8")`: `none` models the raised
`UnicodeDecodeError`. -/
def utf8DecodeStrict (bs : List Nat) : Option (List Nat) :=
  utf8DecodeStrictAux bs.length bs

/-- Ignoring UTF-8 decoding with fuel: on a decoding error the offending
byte is skipped (model of `errors="ignore"`); never fails. -/
def utf8DecodeIgnoreAux : Nat → List Nat → List Nat
  | _, [] => []
  | 0, _ :: _ => []
  | Nat.succ fuel, b :: rest =>
    match utf8Step (b :: rest) with
    | some (cp, r) => cp :: utf8DecodeIgnoreAux fuel r
    | none => utf8DecodeIgnoreAux fuel rest

/-- Model of `bytes.decode("utf-8", errors="ignore")`: total. -/
def utf8DecodeIgnore (bs : List Nat) : List Nat :=
  utf8DecodeIgnoreAux bs.length bs

/-- Code points to a Lean string (the decoders only produce valid scalar
values). -/
def cpsToString (cps : List Nat) : String :=
  String.mk (cps.map Char.ofNat)

/- ===================== Python string methods =====================
Character-list models of the Python `str` methods the repository uses
(`endswith`, `startswith`, slicing, `strip`, `os.path.basename`). -/

def str_endswith (s suffix : String) : Bool := suffix.data.isSuffixOf s.data

def str_startswith (s pre : String) : Bool := pre.data.isPrefixOf s.data

/-- Python slicing `s[:-n]`. -/
def str_dropright (s : String) (n : Nat) : String :=
  String.mk (s.data.take (s.data.length - n))

/-- Python slicing `s[:n]`. -/
def str_take (s : String) (n : Nat) : String := String.mk (s.data.take n)

def isPySpace (c : Char) : Bool :=
  c.toNat = 32 || c.toNat = 9 || c.toNat = 10 || c.toNat = 13 || c.toNat = 11 || c.toNat = 12

/-- Python `str.strip()` restricted to ASCII whitespace. -/
def str_strip (s : String) : String :=
  String.mk (((s.data.dropWhile isPySpace).reverse.dropWhile isPySpace).reverse)

/- ===================== Engine model =====================
The docker daemon state as observed through the docker-py client.  Fields
mirror the attributes the facade reads: `status`, `name`, `short_id`,
`image.tags`, `ports`, `attrs` (config image, creation time, network and
mac address, mounts, environment), the container filesystem served by
`get_archive`, the raw log bytes, and the per-command exec responses.
`stopRaises` injects an engine-side failure of `container.stop()` so that
the swallow-stop-failures behaviour of `remove` can be exercised. -/

structure Container where
  id : String
  name : String
  status : String
  imageTags : List String
  configImage : String
  created : String
  ip : String
  mac : String
  mounts : List (String × String)
  env : List String
  ports : List (String × Option Nat)
  cmd : Option String := none
  cfiles : List (String × String) := []
  logsBytes : List Nat := []
  execOut : List (String × (Int × Option (List Nat) × Option (List Nat))) := []
  stopRaises : Bool := false
deriving DecidableEq

structure DockerImage where
  tags : List String
  size : Nat
deriving DecidableEq

structure EngineState where
  containers : List Container
  images : List DockerImage := []
  counter : Nat := 0
deriving DecidableEq

/-- Local filesystem state touched by `docker_copy_from_container`. -/
structure FS where
  dirs : List String := []
  files : List (String × String) := []
deriving DecidableEq

/-- The engine calls a facade operation can issue, recorded as a trace. -/
inductive EngineCall where
  | listContainers (all : Bool)
  | getContainer (ref : String)
  | startC (id : String)
  | stopC (id : String)
  | restartC (id : String)
  | removeC (id : String)
  | runC (image : String) (name : Option String) (portsArg : PyLit) (command : Option String)
  | getArchive (id : String) (path : String)
  | execRun (id : String) (command : String) (workdir : Option String)
  | logs (id : String) (tail : Nat)
  | listImages
  | pullImage (image : String)
  | removeImage (image : String) (force : Bool)
  | pruneImages

/-- Result of one facade operation: the returned text, the trace of engine
calls issued, and the engine state afterwards. -/
structure OpResult where
  text : String
  calls : List EngineCall
  engine : EngineState

/-- Result of `docker_copy_from_container`: text, trace, and the local
filesystem afterwards (the engine state is never modified by it). -/
structure CopyResult where
  text : String
  calls : List EngineCall
  fs : FS

/-- Model of `client.containers.get(ref)`: resolve by name or id; a missing
container raises `docker.errors.NotFound`, modelled as `Except.error`. -/
def containers_get (s : EngineState) (ref : String) : Except String Container :=
  match s.containers.find? (fun c => c.name == ref || c.id == ref) with
  | some c => .ok c
  | none => .error ("404 Client Error: No such container: " ++ ref)

/-- Set the status of the container with the given id. -/
def statusUpd (id st : String) (x : Container) : Container :=
  if x.id == id then { x with status := st } else x

/-- Model of `container.start()` (POST by id). -/
def container_start (s : EngineState) (id : String) : Except String EngineState :=
  match s.containers.find? (fun c => c.id == id) with
  | none => .error ("No such container: " ++ id)
  | some _ => .ok { s with containers := s.containers.map (statusUpd id ("running")) }

/-- Model of `container.stop()`: fails when the fault-injection flag
`stopRaises` is set, otherwise moves the container to `exited` (stopping an
already stopped container succeeds, as with the real daemon). -/
def container_stop (s : EngineState) (id : String) : Except String EngineState :=
  match s.containers.find? (fun c => c.id == id) with
  | none => .error ("No such container: " ++ id)
  | some c =>
    if c.stopRaises then .error ("stop failed: " ++ id)
    else .ok { s with containers := s.containers.map (statusUpd id ("exited")) }

/-- Model of `container.restart()`. -/
def container_restart (s : EngineState) (id : String) : Except String EngineState :=
  match s.containers.find? (fun c => c.id == id) with
  | none => .error ("No such container: " ++ id)
  | some _ => .ok { s with containers := s.containers.map (statusUpd id ("running")) }

/-- Model of `container.remove()` without force: the daemon refuses to
remove a running container. -/
def container_remove (s : EngineState) (id : String) : Except String EngineState :=
  match s.containers.find? (fun c => c.id == id) with
  | none => .error ("No such container: " ++ id)
  | some c =>
    if c.status == "running" then .error ("conflict: cannot remove a running container: " ++ id)
    else .ok { s with containers := s.containers.filter (fun c2 => !(c2.id == id)) }

/-- The port-mapping shapes the engine accepts from the `ports=` argument
of `containers.run`: a dict from strings to non-negative integers.  Any
other literal makes the engine call fail. -/
def portsFromLit : PyLit → Option (List (String × Option Nat))
  | .dictLit kvs =>
    kvs.foldr
      (fun kv acc =>
        match acc, kv with
        | some l, (.strLit k, .intLit v) => if 0 ≤ v then some ((k, some v.toNat) :: l) else none
        | _, _ => none)
      (some [])
  | _ => none

/-- Model of `client.containers.run(image, name=name, ports=ports_dict,
command=command, detach=True)`: validates the ports argument, rejects a
duplicate name, and otherwise creates a fresh running container. -/
def containers_run (s : EngineState) (image : String) (name : Option String)
    (portsLit : PyLit) (command : Option String) : Except String (Container × EngineState) :=
  match portsFromLit portsLit with
  | none => .error ("invalid port specification")
  | some pb =>
    let cname :=
      match name with
      | some n => n
      | none => "auto_" ++ toString s.counter
    if s.containers.any (fun c => c.name == cname) then
      .error ("Conflict. The container name " ++ cname ++ " is already in use")
    else
      let c : Container :=
        { id := "cid" ++ toString s.counter, name := cname, status := "running",
          imageTags := [image], configImage := image,
          created := "created" ++ toString s.counter,
          ip := "172.17.0." ++ toString (s.counter + 2), mac := "02:42:ac:11:00:02",
          mounts := [], env := [], ports := pb, cmd := command }
      .ok (c, { s with containers := s.containers ++ [c], counter := s.counter + 1 })

/-- Model of `container.exec_run(command, workdir=workdir, demux=True)`:
the per-container table gives `(exit_code, stdout_bytes, stderr_bytes)`. -/
def container_exec (c : Container) (command : String) :
    Int × Option (List Nat) × Option (List Nat) :=
  match c.execOut.lookup command with
  | some r => r
  | none => (0, none, none)

/-- Model of `client.images.pull(name)`. -/
def images_pull (s : EngineState) (name : String) : Except String (DockerImage × EngineState) :=
  let img : DockerImage := { tags := [name], size := 0 }
  .ok (img, { s with images := s.images ++ [img] })

/-- Model of `client.images.remove(name, force=force)`. -/
def images_remove (s : EngineState) (name : String) (force : Bool) : Except String EngineState :=
  if s.images.any (fun i => i.tags.contains name) then
    .ok { s with images := s.images.filter (fun i => !(i.tags.contains name)) }
  else .error ("404 image not found: " ++ name)

/-- Model of `client.images.prune(filters={dangling: True})`: drop untagged
images. -/
def images_prune (s : EngineState) : Except String EngineState :=
  .ok { s with images := s.images.filter (fun i => !i.tags.isEmpty) }

/- ===================== Facade (src/tools/docker_tool.py) ===================== -/

/-- The sentinel returned by every operation when the client handle is
absent. -/
def notConnectedMsg : String := "❌ Docker 服务未连接，请检查是否挂载了 /var/run/docker.sock"

/-- `_check_client`: empty string when connected, the sentinel otherwise
(Python truthiness of the returned string drives the short-circuit). -/
def check_client (connected : Bool) : String :=
  if connected then "" else notConnectedMsg

/-- `short_id` of a docker object: the id truncated to 12 characters. -/
def shortId (id : String) : String := str_take id 12

/-- The ports summary computed inside `docker_list_containers`.  Note: the
source computes this string but never includes it in the output. -/
def portsSummary (c : Container) : String :=
  if c.ports.isEmpty then "-"
  else
    String.intercalate (", ")
      ((c.ports.filter (fun kv => kv.2.isSome)).map
        (fun kv => kv.1 ++ "->" ++ toString (kv.2.getD 0)))

/-- One output line of `docker_list_containers` for one container. -/
def containerLine (c : Container) : String :=
  let statusIcon := if c.status == "running" then "🟢" else "🔴"
  let _ports := portsSummary c
  statusIcon ++ " **" ++ c.name ++ "**\n   ID: " ++ shortId c.id ++ " | Stat: " ++ c.status
    ++ " | img: " ++ (match c.imageTags.head? with | some t => t | none => "none") ++ "\n"

/-- `docker_list_containers(all=True)`. -/
def docker_list_containers (connected : Bool) (s : EngineState) (all : Bool := true) : OpResult :=
  let err := check_client connected
  if err ≠ "" then ⟨err, [], s⟩
  else
    let cs := if all then s.containers else s.containers.filter (fun c => c.status == "running")
    if cs.isEmpty then ⟨"📭 暂无容器。", [.listContainers all], s⟩
    else
      ⟨"📦 **容器列表 (" ++ toString cs.length ++ ")**:\n" ++ String.join (cs.map containerLine),
       [.listContainers all], s⟩

/-- `docker_container_action(container_name, action)`.  The container is
resolved with `containers.get` before the verb is dispatched; `remove`
first attempts a stop, swallowing its failure, then deletes. -/
def docker_container_action (connected : Bool) (s : EngineState)
    (container_name action : String) : OpResult :=
  let err := check_client connected
  if err ≠ "" then ⟨err, [], s⟩
  else
    match containers_get s container_name with
    | .error e => ⟨"❌ 操作失败: " ++ e, [.getContainer container_name], s⟩
    | .ok c =>
      if action = "start" then
        match container_start s c.id with
        | .ok s2 => ⟨"▶️ 容器 `" ++ c.name ++ "` 已启动。", [.getContainer container_name, .startC c.id], s2⟩
        | .error e => ⟨"❌ 操作失败: " ++ e, [.getContainer container_name, .startC c.id], s⟩
      else if action = "stop" then
        match container_stop s c.id with
        | .ok s2 => ⟨"ww⏹️ 容器 `" ++ c.name ++ "` 已停止。", [.getContainer container_name, .stopC c.id], s2⟩
        | .error e => ⟨"❌ 操作失败: " ++ e, [.getContainer container_name, .stopC c.id], s⟩
      else if action = "restart" then
        match container_restart s c.id with
        | .ok s2 => ⟨"🔄 容器 `" ++ c.name ++ "` 已重启。", [.getContainer container_name, .restartC c.id], s2⟩
        | .error e => ⟨"❌ 操作失败: " ++ e, [.getContainer container_name, .restartC c.id], s⟩
      else if action = "remove" then
        let s1 :=
          match container_stop s c.id with
          | .ok s2 => s2
          | .error _ => s
        match container_remove s1 c.id with
        | .ok s2 =>
          ⟨"🗑️ 容器 `" ++ c.name ++ "` 已删除。",
           [.getContainer container_name, .stopC c.id, .removeC c.id], s2⟩
        | .error e =>
          ⟨"❌ 操作失败: " ++ e,
           [.getContainer container_name, .stopC c.id, .removeC c.id], s1⟩
      else ⟨"❌ 未知操作: " ++ action, [.getContainer container_name], s⟩

/-- The parse-error text of `docker_run_container` (braces and apostrophes
written as hex escapes). -/
def portFormatErrMsg : String :=
  "❌ 端口格式错误，请使用 JSON 格式，例如: \x7b\x2780/tcp\x27: 8080\x7d"

/-- `docker_run_container(image, name, ports, command)`: `ports_dict`
starts as the empty dict, a truthy `ports` string is parsed with
`ast.literal_eval` (bare-except returns the parse-error text), then the
engine `run` call is issued with whatever literal was obtained. -/
def docker_run_container (connected : Bool) (s : EngineState) (image : String)
    (name : Option String := none) (ports : Option String := none)
    (command : Option String := none) : OpResult :=
  let err := check_client connected
  if err ≠ "" then ⟨err, [], s⟩
  else
    let pd : Option PyLit :=
      match ports with
      | none => some (.dictLit [])
      | some p => if p = "" then some (.dictLit []) else pyLiteralEval p
    match pd with
    | none => ⟨portFormatErrMsg, [], s⟩
    | some lit =>
      match containers_run s image name lit command with
      | .ok (c, s2) =>
        ⟨"✅ 容器创建并启动成功！\nName: " ++ c.name ++ "\nID: " ++ shortId c.id,
         [.runC image name lit command], s2⟩
      | .error e => ⟨"❌ 创建容器失败: " ++ e, [.runC image name lit command], s⟩

/-- The info dictionary assembled by `docker_inspect_container`:
`Env` is truncated to the first 5 entries, everything else is full. -/
structure InspectInfo where
  ID : String
  Image : String
  Status : String
  Created : String
  IP : String
  MacAddress : String
  Mounts : List String
  Env : List String
deriving DecidableEq

def inspectInfo (c : Container) : InspectInfo :=
  { ID := shortId c.id, Image := c.configImage, Status := c.status, Created := c.created,
    IP := c.ip, MacAddress := c.mac,
    Mounts := c.mounts.map (fun m => m.1 ++ ":" ++ m.2),
    Env := c.env.take 5 }

def jsonStr (s : String) : String := "\"" ++ s ++ "\""

/-- Rendering of a string list in the `json.dumps(..., indent=2)` output. -/
def jsonArr (l : List String) : String :=
  match l with
  | [] => "[]"
  | _ => "[\n" ++ String.intercalate (",\n") (l.map (fun x => "    " ++ jsonStr x)) ++ "\n  ]"

/-- Model of `json.dumps(info, indent=2)` for the inspect dictionary. -/
def dumpsInfo (i : InspectInfo) : String :=
  "\x7b\n  \"ID\": " ++ jsonStr i.ID ++ ",\n  \"Image\": " ++ jsonStr i.Image
    ++ ",\n  \"Status\": " ++ jsonStr i.Status ++ ",\n  \"Created\": " ++ jsonStr i.Created
    ++ ",\n  \"IP\": " ++ jsonStr i.IP ++ ",\n  \"MacAddress\": " ++ jsonStr i.MacAddress
    ++ ",\n  \"Mounts\": " ++ jsonArr i.Mounts ++ ",\n  \"Env\": " ++ jsonArr i.Env ++ "\n\x7d"

/-- `docker_inspect_container(container_name)`. -/
def docker_inspect_container (connected : Bool) (s : EngineState) (container_name : String) : OpResult :=
  let err := check_client connected
  if err ≠ "" then ⟨err, [], s⟩
  else
    match containers_get s container_name with
    | .error e => ⟨"❌ 获取详情失败: " ++ e, [.getContainer container_name], s⟩
    | .ok c =>
      ⟨"🔍 **容器详情 (" ++ c.name ++ ")**:\n```json\n" ++ dumpsInfo (inspectInfo c) ++ "\n```",
       [.getContainer container_name], s⟩

/-- `docker_get_logs(container_name, lines)`: decodes the log bytes with
`errors="ignore"`, so decoding never raises. -/
def docker_get_logs (connected : Bool) (s : EngineState) (container_name : String)
    (lines : Nat := 50) : OpResult :=
  let err := check_client connected
  if err ≠ "" then ⟨err, [], s⟩
  else
    match containers_get s container_name with
    | .error e => ⟨"❌ Log Error: " ++ e, [.getContainer container_name], s⟩
    | .ok c =>
      let logs := cpsToString (utf8DecodeIgnore c.logsBytes)
      ⟨"📜 **" ++ c.name ++ " Logs**:\n```\n" ++ logs ++ "\n```",
       [.getContainer container_name, .logs c.id lines], s⟩

/-- Approximation of `round(size / (1024*1024), 1)` followed by string
formatting: one decimal digit, floor instead of float rounding (no claim
depends on the rounding mode). -/
def mbStr (size : Nat) : String :=
  let t := size * 10 / 1048576
  toString (t / 10) ++ "." ++ toString (t % 10)

/-- `docker_list_images()`. -/
def docker_list_images (connected : Bool) (s : EngineState) : OpResult :=
  let err := check_client connected
  if err ≠ "" then ⟨err, [], s⟩
  else
    if s.images.isEmpty then ⟨"📭 无本地镜像。", [.listImages], s⟩
    else
      ⟨"💿 **镜像列表**:\n" ++ String.join (s.images.map (fun img =>
          "- " ++ (match img.tags.head? with | some t => t | none => "<none>")
            ++ " (" ++ mbStr img.size ++ "MB)\n")),
       [.listImages], s⟩

/-- `docker_pull_image(image_name)`. -/
def docker_pull_image (connected : Bool) (s : EngineState) (image_name : String) : OpResult :=
  let err := check_client connected
  if err ≠ "" then ⟨err, [], s⟩
  else
    match images_pull s image_name with
    | .ok (img, s2) =>
      ⟨"✅ 拉取成功: " ++ (match img.tags.head? with | some t => t | none => ""),
       [.pullImage image_name], s2⟩
    | .error e => ⟨"❌ 拉取失败: " ++ e, [.pullImage image_name], s⟩

/-- `docker_delete_image(image_name, force)`. -/
def docker_delete_image (connected : Bool) (s : EngineState) (image_name : String)
    (force : Bool := false) : OpResult :=
  let err := check_client connected
  if err ≠ "" then ⟨err, [], s⟩
  else
    match images_remove s image_name force with
    | .ok s2 => ⟨"🗑️ 镜像已删除: " ++ image_name, [.removeImage image_name force], s2⟩
    | .error e => ⟨"❌ 删除失败: " ++ e, [.removeImage image_name force], s⟩

/-- `docker_reset_image(image_name)`: pull, then best-effort prune whose
failure is swallowed. -/
def docker_reset_image (connected : Bool) (s : EngineState) (image_name : String) : OpResult :=
  let err := check_client connected
  if err ≠ "" then ⟨err, [], s⟩
  else
    match images_pull s image_name with
    | .error e => ⟨"❌ 重置失败: " ++ e, [.pullImage image_name], s⟩
    | .ok (_, s1) =>
      let s2 :=
        match images_prune s1 with
        | .ok s2 => s2
        | .error _ => s1
      ⟨"🔄 镜像 " ++ image_name ++ " 已重置为最新版。", [.pullImage image_name, .pruneImages], s2⟩

/-- The fixed staging directory of `docker_copy_from_container`. -/
def localDir : String := "/AstrBot/data/data_temp"

/-- `os.path.basename`. -/
def basename (p : String) : String :=
  String.mk ((p.data.reverse.takeWhile (fun c => !(c == '/'))).reverse)

/-- `docker_copy_from_container(container_name, src_path)`: resolves the
container, creates the staging directory if absent, then requests the
archive; `docker.errors.NotFound` from `get_archive` yields the
domain-specific text, any other failure the generic text. -/
def docker_copy_from_container (connected : Bool) (s : EngineState) (fs : FS)
    (container_name src_path : String) : CopyResult :=
  let err := check_client connected
  if err ≠ "" then ⟨err, [], fs⟩
  else
    match containers_get s container_name with
    | .error e => ⟨"❌ 提取文件失败: " ++ e, [.getContainer container_name], fs⟩
    | .ok c =>
      let fs1 := if fs.dirs.contains localDir then fs else { fs with dirs := localDir :: fs.dirs }
      match c.cfiles.lookup src_path with
      | none =>
        ⟨"❌ 容器内未找到文件: " ++ src_path,
         [.getContainer container_name, .getArchive c.id src_path], fs1⟩
      | some content =>
        let localPath := localDir ++ "/" ++ basename src_path
        ⟨"✅ 文件已提取到本地: " ++ localPath,
         [.getContainer container_name, .getArchive c.id src_path],
         { fs1 with files := (localPath, content) :: fs1.files.filter (fun f => !(f.1 == localPath)) }⟩

/-- The fixed message modelling `str(UnicodeDecodeError)` raised by a
strict decode of invalid bytes. -/
def decodeErrMsg : String := "UnicodeDecodeError: invalid continuation byte"

/-- Model of `output[i].decode("utf-8") if output[i] else ""` for one
demuxed stream: `None` and empty bytes give the empty string, anything
else is strictly decoded and may raise. -/
def decodeStreamStrict : Option (List Nat) → Except String String
  | none => .ok ""
  | some bs =>
    if bs.isEmpty then .ok ""
    else
      match utf8DecodeStrict bs with
      | some cps => .ok (cpsToString cps)
      | none => .error decodeErrMsg

/-- The report built by `docker_exec_run` on a successful exec and decode. -/
def formatExecResult (code : Int) (stdout stderr : String) : String :=
  let r := "💻 **执行结果 (Exit Code: " ++ toString code ++ ")**:\n"
  let r := if stdout ≠ "" then r ++ "--- Stdout ---\n" ++ stdout ++ "\n" else r
  let r := if stderr ≠ "" then r ++ "--- Stderr ---\n" ++ stderr ++ "\n" else r
  let r := if stdout = "" ∧ stderr = "" then r ++ "(无输出)" else r
  str_strip r

/-- `docker_exec_run(container_name, command, workdir)`: requires status
`running`, then executes and strictly decodes both demuxed streams; any
raised decode error is caught by the broad handler. -/
def docker_exec_run (connected : Bool) (s : EngineState) (container_name command : String)
    (workdir : Option String := none) : OpResult :=
  let err := check_client connected
  if err ≠ "" then ⟨err, [], s⟩
  else
    match containers_get s container_name with
    | .error e => ⟨"❌ 执行失败: " ++ e, [.getContainer container_name], s⟩
    | .ok c =>
      if c.status ≠ "running" then
        ⟨"❌ 容器 `" ++ c.name ++ "` 未运行，无法执行命令。", [.getContainer container_name], s⟩
      else
        match container_exec c command with
        | (exitCode, o1, o2) =>
          let calls := [.getContainer container_name, .execRun c.id command workdir]
          match decodeStreamStrict o1 with
          | .error e => ⟨"❌ 执行失败: " ++ e, calls, s⟩
          | .ok stdout =>
            match decodeStreamStrict o2 with
            | .error e => ⟨"❌ 执行失败: " ++ e, calls, s⟩
            | .ok stderr => ⟨formatExecResult exitCode stdout stderr, calls, s⟩

/-- `docker_pip_install(container_name, packages)`: builds the mirror
command and delegates to `docker_exec_run` (after its own client check). -/
def docker_pip_install (connected : Bool) (s : EngineState)
    (container_name packages : String) : OpResult :=
  let err := check_client connected
  if err ≠ "" then ⟨err, [], s⟩
  else
    let pip_cmd := "pip install " ++ packages
      ++ " -i https://pypi.tuna.tsinghua.edu.cn/simple --default-timeout=100 --trusted-host pypi.tuna.tsinghua.edu.cn"
    docker_exec_run connected s container_name pip_cmd none

/- ===================== Loader (src/main.py) =====================
Model of `load_tools_dynamic`: the directory listing is a list of file
names; importing is an environment mapping full module names to either a
module or a raised error.  A module member carries the attribute name
(which for a module-level `def` is also `func.__name__`), `func.__module__`,
and whether `mcp.tool()(func)` raises (environment fault injection for the
per-file `except` handler). -/

structure PyFunc where
  name : String
  definedIn : String
  registerOk : Bool
deriving DecidableEq

structure PyModule where
  name : String
  members : List PyFunc
deriving DecidableEq

def ImportEnv : Type := String → Except String PyModule

/-- The file-name filter of the loader loop. -/
def isToolFile (f : String) : Bool := str_endswith f (".py") && !str_startswith f ("__")

/-- `module_name = filename[:-3]`. -/
def moduleBase (f : String) : String := str_dropright f 3

/-- The registration filter: defined in this module and not underscored. -/
def qualifies (m : PyModule) (f : PyFunc) : Bool :=
  f.definedIn == m.name && !str_startswith f.name ("_")

/-- Sequential registration of a module's members.  On a raising
registration the members already registered stay registered (the side
effect happened), the rest of the module is abandoned, and the error is
reported. -/
def registerMembers (m : PyModule) : List PyFunc → List (String × String) × Option String
  | [] => ([], none)
  | f :: rest =>
    if qualifies m f then
      if f.registerOk then
        match registerMembers m rest with
        | (r, e) => ((f.name, m.name) :: r, e)
      else ([], some ("register failed: " ++ f.name))
    else registerMembers m rest

/-- Processing of a single directory entry: filter the file name, import,
register; both import errors and registration errors are reported
per-file. -/
def processFile (env : ImportEnv) (file : String) : List (String × String) × List String :=
  if isToolFile file then
    match env ("tools." ++ moduleBase file) with
    | .error e => ([], ["  ❌ Error loading " ++ file ++ ": " ++ e])
    | .ok m =>
      match registerMembers m m.members with
      | (regs, none) => (regs, [])
      | (regs, some e) => (regs, ["  ❌ Error loading " ++ file ++ ": " ++ e])
  else ([], [])

/-- `load_tools_dynamic`: the loop over the directory listing, returning
the accumulated registry (tool name, source module) and the reported
errors. -/
def load_tools_dynamic : List String → ImportEnv → List (String × String) × List String
  | [], _ => ([], [])
  | file :: rest, env =>
    match processFile env file, load_tools_dynamic rest env with
    | (r, e), (rs, es) => (r ++ rs, e ++ es)

/- ===================== Demo fixtures ===================== -/

/-- Empty engine. -/
def s0 : EngineState := { containers := [], images := [], counter := 0 }

/-- A running container named web. -/
def webC : Container :=
  { id := "cidweb", name := "web", status := "running", imageTags := ["nginx:latest"],
    configImage := "nginx:latest", created := "2024-01-01T00:00:00Z",
    ip := "172.17.0.2", mac := "02:42:ac:11:00:02", mounts := [], env := [], ports := [] }

def s1 : EngineState := { containers := [webC], images := [], counter := 1 }

/-- An exited container whose engine-side stop raises (fault injection). -/
def dbC : Container :=
  { id := "ciddb", name := "db", status := "exited", imageTags := ["postgres:16"],
    configImage := "postgres:16", created := "2024-01-02T00:00:00Z",
    ip := "", mac := "", mounts := [], env := [], ports := [], stopRaises := true }

def sDb : EngineState := { containers := [dbC], images := [], counter := 3 }

/-- A running container holding one file, six environment entries, exec
output that is not valid UTF-8, and log bytes that are not valid UTF-8. -/
def sandboxC : Container :=
  { id := "cidsandbox", name := "sandbox", status := "running", imageTags := ["python:3.12"],
    configImage := "python:3.12", created := "2024-01-03T00:00:00Z",
    ip := "172.17.0.3", mac := "02:42:ac:11:00:03",
    mounts := [("/host/data", "/workspace")],
    env := ["A=1", "B=2", "C=3", "D=4", "E=5", "F=6"],
    ports := [],
    cfiles := [("/workspace/plot.png", "PNGDATA")],
    logsBytes := [255, 104, 105],
    execOut := [("cat /bin/sh", (0, some [255, 254], none))] }

def sSandbox : EngineState := { containers := [sandboxC], images := [], counter := 7 }

/-- A well-formed extension module with a private helper and a re-exported
foreign function among its members. -/
def demoGood : PyModule :=
  { name := "tools.good",
    members :=
      [ { name := "alpha", definedIn := "tools.good", registerOk := true },
        { name := "_hidden", definedIn := "tools.good", registerOk := true },
        { name := "beta", definedIn := "tools.good", registerOk := true },
        { name := "joinpath", definedIn := "os.path", registerOk := true } ] }

/-- Directory listing with one well-formed module, one malformed module,
a dunder file and a non-python file. -/
def demoFiles : List String := ["good.py", "broken.py", "__init__.py", "notes.txt"]

def demoEnv : ImportEnv := fun n =>
  if n = "tools.good" then .ok demoGood else .error ("SyntaxError: invalid syntax")

/-- Substring test on character lists, used to state what a report text
does or does not show. -/
def charsHas (pat : List Char) : List Char → Bool
  | [] => pat.isEmpty
  | c :: rest => pat.isPrefixOf (c :: rest) || charsHas pat rest

/-- The C9 scenario: run nginx as web1 with a port mapping, then list. -/
def c9run : OpResult :=
  docker_run_container true s0 ("nginx:latest") (some ("web1")) (some ("\x7b\x2780/tcp\x27: 8080\x7d")) none

def c9list : OpResult := docker_list_containers true c9run.engine true

/- ===================== Helper lemmas ===================== -/

theorem statusUpd_id (id st : String) (x : Container) : (statusUpd id st x).id = x.id := by
  unfold statusUpd
  split <;> rfl

theorem find?_map_statusUpd (l : List Container) (id st : String) :
    (l.map (statusUpd id st)).find? (fun c2 => c2.id == id)
      = (l.find? (fun c2 => c2.id == id)).map (statusUpd id st) := by
  induction l with
  | nil => rfl
  | cons a t ih =>
    cases hpa : a.id == id with
    | true =>
      rw [List.map_cons, List.find?_cons_of_pos, List.find?_cons_of_pos]
      · rfl
      · exact hpa
      · rw [statusUpd_id]; exact hpa
    | false =>
      rw [List.map_cons, List.find?_cons_of_neg, List.find?_cons_of_neg]
      · exact ih
      · simp [hpa]
      · simp [statusUpd_id, hpa]

theorem filter_map_statusUpd (l : List Container) (id st : String) :
    (l.map (statusUpd id st)).filter (fun c2 => !(c2.id == id))
      = l.filter (fun c2 => !(c2.id == id)) := by
  induction l with
  | nil => rfl
  | cons a t ih =>
    cases hpa : a.id == id with
    | true =>
      have h1 : (!(statusUpd id st a).id == id) = false := by simp [statusUpd_id, hpa]
      have h2 : (!a.id == id) = false := by simp [hpa]
      simp only [List.map_cons, List.filter_cons, h1, h2, ih]
      rfl
    | false =>
      have ha : statusUpd id st a = a := by unfold statusUpd; simp [hpa]
      simp only [List.map_cons, List.filter_cons, ha, ih]

theorem registerMembers_all_ok (m : PyModule) (l : List PyFunc)
    (h : ∀ f ∈ l, qualifies m f = true → f.registerOk = true) :
    registerMembers m l = ((l.filter (qualifies m)).map (fun f => (f.name, m.name)), none) := by
  induction l with
  | nil => rfl
  | cons f rest ih =>
    have hrest : ∀ g ∈ rest, qualifies m g = true → g.registerOk = true :=
      fun g hg => h g (List.mem_cons_of_mem f hg)
    cases hq : qualifies m f with
    | true =>
      have hok : f.registerOk = true := h f (List.mem_cons_self f rest) hq
      simp [registerMembers, hq, hok, ih hrest, List.filter_cons]
    | false =>
      simp [registerMembers, hq, ih hrest, List.filter_cons]

theorem load_tools_dynamic_eq (files : List String) (env : ImportEnv) :
    load_tools_dynamic files env
      = (files.flatMap (fun f => (processFile env f).1),
         files.flatMap (fun f => (processFile env f).2)) := by
  induction files with
  | nil => rfl
  | cons f rest ih => simp [load_tools_dynamic, ih]

/- ===================== Claim theorems ===================== -/

/-- C1: when the engine client handle is absent, every facade operation
(list, action, run, inspect, logs, image list/pull/delete/reset, copy,
exec, install) returns the same fixed not-connected sentinel text,
issues no engine call, and leaves the engine state untouched. -/
theorem facade_disconnected_sentinel :
    (∀ s all, docker_list_containers false s all = ⟨notConnectedMsg, [], s⟩)
  ∧ (∀ s ref act, docker_container_action false s ref act = ⟨notConnectedMsg, [], s⟩)
  ∧ (∀ s img nm p cmd, docker_run_container false s img nm p cmd = ⟨notConnectedMsg, [], s⟩)
  ∧ (∀ s ref, docker_inspect_container false s ref = ⟨notConnectedMsg, [], s⟩)
  ∧ (∀ s ref n, docker_get_logs false s ref n = ⟨notConnectedMsg, [], s⟩)
  ∧ (∀ s, docker_list_images false s = ⟨notConnectedMsg, [], s⟩)
  ∧ (∀ s nm, docker_pull_image false s nm = ⟨notConnectedMsg, [], s⟩)
  ∧ (∀ s nm fo, docker_delete_image false s nm fo = ⟨notConnectedMsg, [], s⟩)
  ∧ (∀ s nm, docker_reset_image false s nm = ⟨notConnectedMsg, [], s⟩)
  ∧ (∀ s fs ref p, docker_copy_from_container false s fs ref p = ⟨notConnectedMsg, [], fs⟩)
  ∧ (∀ s ref cmd wd, docker_exec_run false s ref cmd wd = ⟨notConnectedMsg, [], s⟩)
  ∧ (∀ s ref pk, docker_pip_install false s ref pk = ⟨notConnectedMsg, [], s⟩) := by
  refine ⟨?_, ?_, ?_, ?_, ?_, ?_, ?_, ?_, ?_, ?_, ?_, ?_⟩ <;> intros <;> rfl

/-- C2: the loader registers, for every module file that imports
successfully and whose registrations do not raise, exactly the module
members defined in that module whose identifier does not start with an
underscore, each under its bare name; the registry and the error report
are per-file concatenations, so an import failure of one module is
reported and contributes nothing while leaving every other module's
registrations intact. -/
theorem load_tools_dynamic_isolation (files : List String) (env : ImportEnv)
    (file : String) (m : PyModule)
    (hvalid : isToolFile file = true)
    (himp : env ("tools." ++ moduleBase file) = .ok m)
    (hreg : ∀ f ∈ m.members, qualifies m f = true → f.registerOk = true) :
    (load_tools_dynamic files env).1 = files.flatMap (fun f => (processFile env f).1)
  ∧ (processFile env file).1 = (m.members.filter (qualifies m)).map (fun f => (f.name, m.name))
  ∧ (load_tools_dynamic files env).2 = files.flatMap (fun f => (processFile env f).2)
  ∧ (∀ f2 e2, isToolFile f2 = true → env ("tools." ++ moduleBase f2) = .error e2 →
       processFile env f2 = ([], ["  ❌ Error loading " ++ f2 ++ ": " ++ e2])) := by
  refine ⟨?_, ?_, ?_, ?_⟩
  · rw [load_tools_dynamic_eq]
  · simp [processFile, hvalid, himp, registerMembers_all_ok m m.members hreg]
  · rw [load_tools_dynamic_eq]
  · intro f2 e2 hv2 he2
    simp [processFile, hv2, he2]

/-- C2 witness: one well-formed and one malformed module in the same
directory; the well-formed module's qualifying tools are all registered,
the malformed module's failure is reported. -/
theorem load_tools_dynamic_isolation_witness :
    (load_tools_dynamic demoFiles demoEnv).1 = [("alpha", "tools.good"), ("beta", "tools.good")]
  ∧ (load_tools_dynamic demoFiles demoEnv).2
      = ["  ❌ Error loading broken.py: SyntaxError: invalid syntax"] := by
  have h := load_tools_dynamic_isolation demoFiles demoEnv ("good.py") demoGood (by rfl) (by rfl)
    (by intro f hf hq; fin_cases hf <;> rfl)
  refine ⟨?_, ?_⟩
  · rw [h.1]; rfl
  · rw [h.2.2.1]; rfl

/-- C3 counterexample: the string encoding the list literal 1, 2, 3 does
not decode to a port mapping, yet `docker_run_container` does not return
the parse-error text and does issue an engine run call (the literal parser
accepts every Python literal, not only port mappings). -/
theorem run_container_nonmapping_literal_counterexample :
    (docker_run_container true s0 ("nginx:latest") none (some ("[1, 2, 3]")) none).text
        = "❌ 创建容器失败: invalid port specification"
  ∧ (docker_run_container true s0 ("nginx:latest") none (some ("[1, 2, 3]")) none).text
        ≠ portFormatErrMsg
  ∧ (docker_run_container true s0 ("nginx:latest") none (some ("[1, 2, 3]")) none).calls
        = [EngineCall.runC ("nginx:latest") none
             (.listLit [.intLit 1, .intLit 2, .intLit 3]) none]
  ∧ (docker_run_container true s0 ("nginx:latest") none (some ("[1, 2, 3]")) none).calls
        ≠ [] := by
  have htext : (docker_run_container true s0 ("nginx:latest") none (some ("[1, 2, 3]")) none).text
      = "❌ 创建容器失败: invalid port specification" := rfl
  have hcalls : (docker_run_container true s0 ("nginx:latest") none (some ("[1, 2, 3]")) none).calls
      = [EngineCall.runC ("nginx:latest") none
           (.listLit [.intLit 1, .intLit 2, .intLit 3]) none] := rfl
  refine ⟨htext, ?_, hcalls, ?_⟩
  · rw [htext]; decide
  · rw [hcalls]; exact List.cons_ne_nil _ _

/-- C3 amended: only for a non-empty portsSpec string that fails to parse
as a Python literal does `docker_run_container` return the parse-error
text before any engine call (leaving the engine untouched); a string that
parses as any literal is handed to the engine run call unchanged, and the
parse is pure literal parsing, never expression evaluation. -/
theorem run_container_parse_failure_fail_fast (s : EngineState) (image : String)
    (name command : Option String) (p : String) (hp : ¬ p = "")
    (hparse : pyLiteralEval p = none) :
    docker_run_container true s image name (some p) command = ⟨portFormatErrMsg, [], s⟩ := by
  simp [docker_run_container, check_client, hp, hparse]

/-- C3 amended witness: the spec test input is not a literal, so the
parse-error text is returned with no engine call. -/
theorem run_container_parse_failure_fail_fast_witness :
    docker_run_container true s0 ("nginx:latest") none (some ("not-a-mapping")) none
      = ⟨portFormatErrMsg, [], s0⟩ :=
  run_container_parse_failure_fail_fast s0 ("nginx:latest") none none ("not-a-mapping")
    (by decide) (by rfl)

/-- C4 counterexample: an unrecognized verb on an existing container does
return the unknown-operation text, but only after resolving the reference
with an engine `containers.get` call — the engine-call trace is not empty. -/
theorem container_action_unknown_verb_counterexample :
    (docker_container_action true s1 ("web") ("pause")).text = "❌ 未知操作: pause"
  ∧ (docker_container_action true s1 ("web") ("pause")).calls = [EngineCall.getContainer ("web")]
  ∧ (docker_container_action true s1 ("web") ("pause")).calls ≠ [] := by
  have hcalls : (docker_container_action true s1 ("web") ("pause")).calls
      = [EngineCall.getContainer ("web")] := rfl
  refine ⟨rfl, hcalls, ?_⟩
  rw [hcalls]
  exact List.cons_ne_nil _ _

/-- C4 amended: for every verb outside start/stop/restart/remove,
`docker_container_action` first resolves the reference against the engine
(one `containers.get` call) and, when resolution succeeds, returns the
unknown-operation error text with no further engine call and the engine
state unchanged. -/
theorem container_action_unknown_verb (s : EngineState) (ref verb : String) (c : Container)
    (hget : containers_get s ref = .ok c)
    (h1 : ¬ verb = "start") (h2 : ¬ verb = "stop") (h3 : ¬ verb = "restart")
    (h4 : ¬ verb = "remove") :
    docker_container_action true s ref verb
      = ⟨"❌ 未知操作: " ++ verb, [EngineCall.getContainer ref], s⟩ := by
  simp [docker_container_action, check_client, hget, h1, h2, h3, h4]

/-- C4 amended witness: the pause verb on an existing container. -/
theorem container_action_unknown_verb_witness :
    docker_container_action true s1 ("web") ("pause")
      = ⟨"❌ 未知操作: pause", [EngineCall.getContainer ("web")], s1⟩ :=
  container_action_unknown_verb s1 ("web") ("pause") webC (by rfl) (by decide) (by decide)
    (by decide) (by decide)

/-- C5: the remove verb resolves the container, attempts a stop whose
failure is swallowed (the hypothesis places no constraint on the injected
stop fault), then deletes; on a container already in the exited state it
returns the success text and the container is removed from the engine
state. -/
theorem container_action_remove_stopped (s : EngineState) (ref : String) (c : Container)
    (hget : containers_get s ref = .ok c)
    (hfind : s.containers.find? (fun c2 => c2.id == c.id) = some c)
    (hst : c.status = "exited") :
    docker_container_action true s ref ("remove")
      = ⟨"🗑️ 容器 `" ++ c.name ++ "` 已删除。",
         [EngineCall.getContainer ref, EngineCall.stopC c.id, EngineCall.removeC c.id],
         { s with containers := s.containers.filter (fun c2 => !(c2.id == c.id)) }⟩
  ∧ ∀ c2 ∈ (docker_container_action true s ref ("remove")).engine.containers,
      ¬ c2.id = c.id := by
  have hstatusne : (c.status == "running") = false := by rw [hst]; rfl
  have hmain : docker_container_action true s ref ("remove")
      = ⟨"🗑️ 容器 `" ++ c.name ++ "` 已删除。",
         [EngineCall.getContainer ref, EngineCall.stopC c.id, EngineCall.removeC c.id],
         { s with containers := s.containers.filter (fun c2 => !(c2.id == c.id)) }⟩ := by
    cases hraise : c.stopRaises with
    | true =>
      simp [docker_container_action, check_client, hget, container_stop, container_remove,
            hfind, hraise, hstatusne]
    | false =>
      have hfind2 : (s.containers.map (statusUpd c.id ("exited"))).find?
          (fun c2 => c2.id == c.id) = some (statusUpd c.id ("exited") c) := by
        rw [find?_map_statusUpd, hfind]
        rfl
      have hupd : statusUpd c.id ("exited") c = { c with status := "exited" } := by
        unfold statusUpd
        simp
      have hst2 : (({ c with status := "exited" } : Container).status == "running") = false := rfl
      simp [docker_container_action, check_client, hget, container_stop, container_remove,
            hfind, hraise, hfind2, hupd, hst2, filter_map_statusUpd]
  refine ⟨hmain, ?_⟩
  rw [hmain]
  intro c2 hc2
  simp only [List.mem_filter] at hc2
  simpa using hc2.2

/-- C5 witness: removing an exited container whose engine-side stop raises
(fault injection) still returns the success text, and the container is
gone from the engine state. -/
theorem container_action_remove_stopped_witness :
    docker_container_action true sDb ("db") ("remove")
      = ⟨"🗑️ 容器 `db` 已删除。",
         [EngineCall.getContainer ("db"), EngineCall.stopC ("ciddb"), EngineCall.removeC ("ciddb")],
         { sDb with containers := [] }⟩ := by
  have h := (container_action_remove_stopped sDb ("db") dbC (by rfl) (by rfl) (by rfl)).1
  rw [h]
  rfl

/-- C6: exec on a container whose resolved status is not running returns
the domain not-running text with no exec call in the engine trace; only
when the status is running is the exec call issued. -/
theorem exec_run_requires_running (s : EngineState) (ref command : String) (wd : Option String)
    (c : Container) (hget : containers_get s ref = .ok c) :
    (¬ c.status = "running" →
       docker_exec_run true s ref command wd
         = ⟨"❌ 容器 `" ++ c.name ++ "` 未运行，无法执行命令。", [EngineCall.getContainer ref], s⟩)
  ∧ (c.status = "running" →
       (docker_exec_run true s ref command wd).calls
         = [EngineCall.getContainer ref, EngineCall.execRun c.id command wd]) := by
  constructor
  · intro hns
    simp [docker_exec_run, check_client, hget, hns]
  · intro hr
    rcases hx : container_exec c command with ⟨code, o1, o2⟩
    cases h1 : decodeStreamStrict o1 with
    | error e => simp [docker_exec_run, check_client, hget, hr, hx, h1]
    | ok t1 =>
      cases h2 : decodeStreamStrict o2 with
      | error e => simp [docker_exec_run, check_client, hget, hr, hx, h1, h2]
      | ok t2 => simp [docker_exec_run, check_client, hget, hr, hx, h1, h2]

/-- C6 witness: exec on an exited container returns the not-running text
and the trace holds only the resolution call. -/
theorem exec_run_requires_running_witness :
    docker_exec_run true sDb ("db") ("echo hi") none
      = ⟨"❌ 容器 `db` 未运行，无法执行命令。", [EngineCall.getContainer ("db")], sDb⟩ :=
  (exec_run_requires_running sDb ("db") ("echo hi") none dbC (by rfl)).1 (by decide)

/-- C7 counterexample: a not-found copy on a fresh filesystem returns the
not-found text and writes no file, but the staging directory is created
before the archive request, so the filesystem state does change. -/
theorem copy_not_found_creates_staging_dir_counterexample :
    (docker_copy_from_container true sSandbox ⟨[], []⟩ ("sandbox") ("/no/such/file")).text
        = "❌ 容器内未找到文件: /no/such/file"
  ∧ (docker_copy_from_container true sSandbox ⟨[], []⟩ ("sandbox") ("/no/such/file")).fs
        = ⟨[localDir], []⟩
  ∧ (⟨[localDir], []⟩ : FS) ≠ (⟨[], []⟩ : FS) := by
  refine ⟨rfl, rfl, ?_⟩
  intro h
  exact List.cons_ne_nil _ _ (congrArg FS.dirs h)

/-- C7 amended: on an engine-reported not-found path the copy returns the
domain not-found text, writes no file (the file table is unchanged), and
the only filesystem effect is creating the staging directory when it did
not already exist. -/
theorem copy_not_found_no_file_writes (s : EngineState) (fs : FS) (ref path : String)
    (c : Container) (hget : containers_get s ref = .ok c)
    (hmiss : c.cfiles.lookup path = none) :
    docker_copy_from_container true s fs ref path
      = ⟨"❌ 容器内未找到文件: " ++ path,
         [EngineCall.getContainer ref, EngineCall.getArchive c.id path],
         if fs.dirs.contains localDir then fs else { fs with dirs := localDir :: fs.dirs }⟩
  ∧ (docker_copy_from_container true s fs ref path).fs.files = fs.files := by
  have hmain : docker_copy_from_container true s fs ref path
      = ⟨"❌ 容器内未找到文件: " ++ path,
         [EngineCall.getContainer ref, EngineCall.getArchive c.id path],
         if fs.dirs.contains localDir then fs else { fs with dirs := localDir :: fs.dirs }⟩ := by
    simp [docker_copy_from_container, check_client, hget, hmiss]
  refine ⟨hmain, ?_⟩
  rw [hmain]
  cases h : fs.dirs.contains localDir <;> simp [h]

/-- C7 amended witness: a not-found copy over a filesystem that already
holds an unrelated file leaves the file table unchanged and only adds the
staging directory. -/
theorem copy_not_found_no_file_writes_witness :
    docker_copy_from_container true sSandbox ⟨["/tmp"], [("/tmp/a.txt", "A")]⟩
        ("sandbox") ("/no/such/file")
      = ⟨"❌ 容器内未找到文件: /no/such/file",
         [EngineCall.getContainer ("sandbox"), EngineCall.getArchive ("cidsandbox") ("/no/such/file")],
         ⟨[localDir, "/tmp"], [("/tmp/a.txt", "A")]⟩⟩ := by
  have h := (copy_not_found_no_file_writes sSandbox ⟨["/tmp"], [("/tmp/a.txt", "A")]⟩
      ("sandbox") ("/no/such/file") sandboxC (by rfl) (by rfl)).1
  rw [h]
  rfl

/-- C8: the inspect report embeds exactly the first five declared
environment entries when more than five are present, while image, status,
creation timestamp, network address, link-layer address and the
source:destination mount pairs are included untruncated. -/
theorem inspect_truncates_env_to_five (s : EngineState) (ref : String) (c : Container)
    (hget : containers_get s ref = .ok c) (henv : 5 < c.env.length) :
    docker_inspect_container true s ref
      = ⟨"🔍 **容器详情 (" ++ c.name ++ ")**:\n```json\n" ++ dumpsInfo (inspectInfo c) ++ "\n```",
         [EngineCall.getContainer ref], s⟩
  ∧ (inspectInfo c).Env = c.env.take 5
  ∧ (inspectInfo c).Env.length = 5
  ∧ (inspectInfo c).Image = c.configImage
  ∧ (inspectInfo c).Status = c.status
  ∧ (inspectInfo c).Created = c.created
  ∧ (inspectInfo c).IP = c.ip
  ∧ (inspectInfo c).MacAddress = c.mac
  ∧ (inspectInfo c).Mounts = c.mounts.map (fun m => m.1 ++ ":" ++ m.2) := by
  refine ⟨by simp [docker_inspect_container, check_client, hget], rfl, ?_, rfl, rfl, rfl,
    rfl, rfl, rfl⟩
  simp only [inspectInfo, List.length_take]
  omega

/-- C8 witness: a container with six environment entries reports exactly
the first five. -/
theorem inspect_truncates_env_to_five_witness :
    (docker_inspect_container true sSandbox ("sandbox")).text
      = "🔍 **容器详情 (sandbox)**:\n```json\n" ++ dumpsInfo (inspectInfo sandboxC) ++ "\n```"
  ∧ (inspectInfo sandboxC).Env = ["A=1", "B=2", "C=3", "D=4", "E=5"]
  ∧ sandboxC.env.length = 6 := by
  have h := inspect_truncates_env_to_five sSandbox ("sandbox") sandboxC (by rfl) (by decide)
  refine ⟨?_, ?_, rfl⟩
  · rw [h.1]
    rfl
  · rw [h.2.1]
    rfl

/-- C9 counterexample: after a successful run of nginx as web1 with the
port mapping 80/tcp to 8080, the listing text does not show the mapping
(the source computes the ports string but omits it from the output). -/
theorem list_after_run_omits_ports_counterexample :
    c9run.text = "✅ 容器创建并启动成功！\nName: web1\nID: cid0"
  ∧ c9list.text
      = "📦 **容器列表 (1)**:\n🟢 **web1**\n   ID: cid0 | Stat: running | img: nginx:latest\n"
  ∧ charsHas (("80/tcp->8080").data) c9list.text.data = false := by
  exact ⟨rfl, rfl, rfl⟩

/-- C9 amended: the run creates web1 running with the port mapping held in
the engine state, and the subsequent listing shows the entry web1 with
status running, but no port mapping appears in the listing text. -/
theorem list_after_run_shows_name_and_status :
    c9run.engine.containers.map (fun c => (c.name, c.status, c.ports))
      = [("web1", "running", [("80/tcp", some 8080)])]
  ∧ c9list.text
      = "📦 **容器列表 (1)**:\n🟢 **web1**\n   ID: cid0 | Stat: running | img: nginx:latest\n"
  ∧ charsHas (("**web1**").data) c9list.text.data = true
  ∧ charsHas (("Stat: running").data) c9list.text.data = true := by
  exact ⟨rfl, rfl, rfl, rfl⟩

/-- C10: when the exec succeeds at the engine level but a captured stream
holds bytes that are not valid UTF-8, the strict decode raises and the
broad handler returns the generic execution-failed text instead of the
exit-code report; invalid bytes always make the strict stream decode
raise; and `docker_get_logs` decodes ignoring invalid sequences and always
returns the log report. -/
theorem exec_strict_decode_vs_logs_ignore (s : EngineState) (ref command : String)
    (wd : Option String) (c : Container) (code : Int) (o1 o2 : Option (List Nat))
    (hget : containers_get s ref = .ok c) (hrun : c.status = "running")
    (hout : container_exec c command = (code, o1, o2))
    (hbad : decodeStreamStrict o1 = .error decodeErrMsg
          ∨ ((∃ t, decodeStreamStrict o1 = .ok t) ∧ decodeStreamStrict o2 = .error decodeErrMsg)) :
    docker_exec_run true s ref command wd
      = ⟨"❌ 执行失败: " ++ decodeErrMsg,
         [EngineCall.getContainer ref, EngineCall.execRun c.id command wd], s⟩
  ∧ (∀ bs, utf8DecodeStrict bs = none → decodeStreamStrict (some bs) = .error decodeErrMsg)
  ∧ (∀ s2 ref2 (c2 : Container) n, containers_get s2 ref2 = .ok c2 →
       docker_get_logs true s2 ref2 n
         = ⟨"📜 **" ++ c2.name ++ " Logs**:\n```\n"
              ++ cpsToString (utf8DecodeIgnore c2.logsBytes) ++ "\n```",
            [EngineCall.getContainer ref2, EngineCall.logs c2.id n], s2⟩) := by
  refine ⟨?_, ?_, ?_⟩
  · rcases hbad with h1 | ⟨⟨t, h1⟩, h2⟩
    · simp [docker_exec_run, check_client, hget, hrun, hout, h1]
    · simp [docker_exec_run, check_client, hget, hrun, hout, h1, h2]
  · intro bs hb
    cases bs with
    | nil => simp [utf8DecodeStrict, utf8DecodeStrictAux] at hb
    | cons b rest => simp [decodeStreamStrict, hb]
  · intro s2 ref2 c2 n hget2
    simp [docker_get_logs, check_client, hget2]

/-- C10 witness: an exec whose stdout bytes are invalid UTF-8 yields the
generic execution-failed text, while the logs of the same container (whose
bytes are also invalid) are still reported, with the bad byte dropped. -/
theorem exec_strict_decode_vs_logs_ignore_witness :
    docker_exec_run true sSandbox ("sandbox") ("cat /bin/sh") none
      = ⟨"❌ 执行失败: " ++ decodeErrMsg,
         [EngineCall.getContainer ("sandbox"),
          EngineCall.execRun ("cidsandbox") ("cat /bin/sh") none], sSandbox⟩
  ∧ (docker_get_logs true sSandbox ("sandbox") 50).text
      = "📜 **sandbox Logs**:\n```\nhi\n```" := by
  have h := exec_strict_decode_vs_logs_ignore sSandbox ("sandbox") ("cat /bin/sh") none
    sandboxC 0 (some [255, 254]) none (by rfl) (by rfl) (by rfl) (Or.inl (by rfl))
  refine ⟨h.1, ?_⟩
  rw [h.2.2 sSandbox ("sandbox") sandboxC 50 (by rfl)]
  rfl

end MCPDyn
